import Mathlib

/-!
Shallow embedding of the post-lifecycle core of the link-ai-friend
repository: the `sync-post` serverless handler, the `check-overdue-posts`
sweeper, the client-side post hooks (`useScheduledPosts`, `usePostsClean`),
the `postLifecycle` predicates and the extension bridge in `scheduling.ts`.
Timestamps are modelled as natural numbers of milliseconds; JavaScript
truthiness of optional strings is modelled explicitly.
-/

namespace LinkAiFriend

/-- JavaScript truthiness of an optional string: absent or empty is falsy. -/
def jsTruthy : Option String → Bool
  | none => false
  | some s => s ≠ ""

/-- JavaScript `x || d` for an optional string against a string default. -/
def jsOrStr (x : Option String) (d : String) : String :=
  match x with
  | none => d
  | some s => if s = "" then d else s

/-- JavaScript `x || d` for an optional string against an optional default. -/
def jsOrOptStr (x : Option String) (d : Option String) : Option String :=
  match x with
  | none => d
  | some s => if s = "" then d else some s

/-- JavaScript `x || y` for optional naturals (0 is falsy). -/
def jsOrOptNat (x : Option Nat) (y : Option Nat) : Option Nat :=
  match x with
  | none => y
  | some n => if n = 0 then y else some n

/-- A row of the `posts` table (fields used by the lifecycle core). -/
structure PostRow where
  id : String
  tracking_id : Option String := none
  user_id : String
  content : String := ""
  content_with_tracking : Option String := none
  photo_url : Option String := none
  status : String
  linkedin_post_url : Option String := none
  posted_at : Option Nat := none
  last_error : Option String := none
  retry_count : Nat := 0
  next_retry_at : Option Nat := none
  scheduled_time : Option Nat := none
  verified : Bool := false
  updated_at : Nat := 0
  deriving DecidableEq, Repr

/-- A row of the `notifications` table. -/
structure NotificationRow where
  user_id : String
  title : String
  message : String
  type : String
  deriving DecidableEq, Repr

/-- A row of the `user_profiles` table (the published-post counter). -/
structure ProfileRow where
  user_id : String
  posts_published_count : Nat
  deriving DecidableEq, Repr

/-- The database state shared by the serverless functions. -/
structure DbState where
  posts : List PostRow
  notifications : List NotificationRow := []
  profiles : List ProfileRow := []
  daily_post_counts : List (String × Nat) := []
  deriving DecidableEq, Repr

/-- The JSON payload accepted by the `sync-post` function. -/
structure SyncPostPayload where
  trackingId : Option String := none
  postId : Option String := none
  userId : Option String := none
  linkedinUrl : Option String := none
  status : Option String := none
  postedAt : Option Nat := none
  lastError : Option String := none
  deriving DecidableEq, Repr

/-- The HTTP response produced by the `sync-post` function. -/
structure SyncResponse where
  statusCode : Nat
  success : Bool
  deriving DecidableEq, Repr

/-- The `updateData` record applied by `sync-post` to a matched row:
status defaults to `posted`, the posted branch sets the URL and the
publish timestamp, the failed branch sets the error and the retry count. -/
def applySyncUpdate (p : SyncPostPayload) (now : Nat) (row : PostRow) : PostRow :=
  let r1 : PostRow := { row with status := jsOrStr p.status "posted", updated_at := now }
  let r2 : PostRow :=
    if p.status == some "posted" || !(jsTruthy p.status) then
      { r1 with linkedin_post_url := jsOrOptStr p.linkedinUrl none,
                posted_at := some (p.postedAt.getD now) }
    else r1
  if p.status == some "failed" then
    { r2 with last_error := some (jsOrStr p.lastError "Unknown error"), retry_count := 1 }
  else r2

/-- The row filter built by `sync-post`: match by `postId` when truthy,
otherwise by `trackingId`, and additionally by `userId` when supplied. -/
def syncRowMatches (p : SyncPostPayload) (row : PostRow) : Bool :=
  (if jsTruthy p.postId then row.id == p.postId.getD ""
   else if jsTruthy p.trackingId then row.tracking_id == some (p.trackingId.getD "")
   else true)
  && (if jsTruthy p.userId then row.user_id == p.userId.getD "" else true)

/-- The per-row effect of the `sync-post` update query. -/
def syncUpdateRow (p : SyncPostPayload) (now : Nat) (row : PostRow) : PostRow :=
  if syncRowMatches p row then applySyncUpdate p now row else row

/-- Modelled from the spec: the `increment_daily_post_count` database
function is defined in the database, not under `src/` (only its callers
are); per the spec it increments a per-owner counter. Modelled as bumping
the owner's entry, creating it at 1 when absent. -/
def increment_daily_post_count (uid : String) (m : List (String × Nat)) : List (String × Nat) :=
  match m.find? (fun e => e.fst == uid) with
  | some _ => m.map (fun e => if e.fst == uid then (e.fst, e.snd + 1) else e)
  | none => (uid, 1) :: m

/-- The read-then-write profile-counter bump performed by `sync-post`:
read `posts_published_count` for the user (`maybeSingle`), and when a
profile exists write back that value plus one. -/
def bumpProfile (uid : String) (profiles : List ProfileRow) : List ProfileRow :=
  match profiles.find? (fun pr => pr.user_id == uid) with
  | some pr0 =>
      profiles.map (fun pr =>
        if pr.user_id == uid then
          { pr with posts_published_count := pr0.posts_published_count + 1 }
        else pr)
  | none => profiles

/-- The success notification inserted by `sync-post`. -/
def syncSuccessNote (uid : String) : NotificationRow :=
  { user_id := uid
    title := "Post Published 🎉"
    message := "Your LinkedIn post has been published successfully."
    type := "post" }

/-- The failure notification inserted by `sync-post`. -/
def syncFailureNote (uid : String) (lastError : Option String) : NotificationRow :=
  { user_id := uid
    title := "Post Failed ❌"
    message := jsOrStr lastError "Failed to publish your post. Please try again."
    type := "post" }

/-- Whether `sync-post` runs the success side effects: a truthy `userId`
together with status `posted` or an absent status. -/
def syncDoesSuccessEffects (p : SyncPostPayload) : Bool :=
  jsTruthy p.userId && (p.status == some "posted" || !(jsTruthy p.status))

/-- Whether `sync-post` inserts the failure notification: a truthy
`userId` together with status `failed`. -/
def syncDoesFailureEffects (p : SyncPostPayload) : Bool :=
  jsTruthy p.userId && p.status == some "failed"

/-- The state transformation of a validated `sync-post` call: apply the
update to every matching row, then run the success or failure side
effects when a `userId` was supplied (each table is touched
independently, so the effects are recorded per field). -/
def syncPostApply (p : SyncPostPayload) (now : Nat) (st : DbState) : DbState :=
  let uid := p.userId.getD ""
  { posts := st.posts.map (syncUpdateRow p now)
    daily_post_counts :=
      if syncDoesSuccessEffects p then increment_daily_post_count uid st.daily_post_counts
      else st.daily_post_counts
    notifications :=
      (st.notifications ++ (if syncDoesSuccessEffects p then [syncSuccessNote uid] else []))
        ++ (if syncDoesFailureEffects p then [syncFailureNote uid p.lastError] else [])
    profiles :=
      if syncDoesSuccessEffects p then bumpProfile uid st.profiles else st.profiles }

/-- The `sync-post` handler: reject a payload carrying neither
identifier with HTTP 400, otherwise apply the update and side effects
and answer HTTP 200. -/
def syncPost (p : SyncPostPayload) (now : Nat) (st : DbState) : SyncResponse × DbState :=
  if !(jsTruthy p.trackingId) && !(jsTruthy p.postId) then
    ({ statusCode := 400, success := false }, st)
  else
    ({ statusCode := 200, success := true }, syncPostApply p now st)

/-- The published-post counter stored for a user, when a profile exists. -/
def profileCount (uid : String) (profiles : List ProfileRow) : Option Nat :=
  (profiles.find? (fun pr => pr.user_id == uid)).map (fun pr => pr.posts_published_count)

/-- The `posts_status_check` constraint from migration
`20260201085811`: the only persistable statuses. -/
def posts_status_check (s : String) : Bool :=
  s == "pending" || s == "posting" || s == "posted" || s == "failed"

/-- Staleness threshold of the sweeper: one hour in milliseconds. -/
def oneHourMs : Nat := 60 * 60 * 1000

/-- First-pass filter of `check-overdue-posts`: status `scheduled`, a
non-null `linkedin_post_url`, and a scheduled time before now. -/
def overdueWithUrl (now : Nat) (r : PostRow) : Bool :=
  r.status == "scheduled" && r.linkedin_post_url.isSome
    && r.scheduled_time.any (fun t => t < now)

/-- First-pass update of `check-overdue-posts`: mark the row posted,
using its scheduled time as the publish timestamp. -/
def markAutoPosted (now : Nat) (r : PostRow) : PostRow :=
  { r with status := "posted", posted_at := some (r.scheduled_time.getD now),
           verified := true, updated_at := now }

/-- The standard timeframe error message of the sweeper. -/
def overdueTimeframeMsg : String :=
  "Post was not published within expected timeframe. Extension may not have been active."

/-- Second-pass filter of `check-overdue-posts`: status `scheduled`, a
null `linkedin_post_url`, and a scheduled time more than one hour past. -/
def stuckNoUrl (now : Nat) (r : PostRow) : Bool :=
  r.status == "scheduled" && r.linkedin_post_url.isNone
    && r.scheduled_time.any (fun t => t < now - oneHourMs)

/-- Second-pass update of `check-overdue-posts`: mark the row failed
with the standard timeframe message. -/
def markOverdueFailed (now : Nat) (r : PostRow) : PostRow :=
  { r with status := "failed", last_error := some overdueTimeframeMsg, updated_at := now }

/-- The notification inserted by the sweeper's first pass. -/
def sweeperPostedNote (uid : String) : NotificationRow :=
  { user_id := uid
    title := "Post Status Updated ✅"
    message := "A scheduled post has been marked as published."
    type := "post" }

/-- The notification inserted by the sweeper's second pass. -/
def sweeperFailedNote (uid : String) : NotificationRow :=
  { user_id := uid
    title := "Post Failed ⚠️"
    message := "A scheduled post could not be published. Please check your extension connection."
    type := "post" }

/-- The `check-overdue-posts` sweeper: first resolve scheduled rows that
already carry an external URL, then fail rows stuck for over an hour,
notifying the owner of each touched row. -/
def checkOverduePosts (now : Nat) (st : DbState) : DbState :=
  let m1 := st.posts.filter (overdueWithUrl now)
  let posts1 := st.posts.map (fun r => if overdueWithUrl now r then markAutoPosted now r else r)
  let notes1 := st.notifications ++ m1.map (fun r => sweeperPostedNote r.user_id)
  let m2 := posts1.filter (stuckNoUrl now)
  let posts2 := posts1.map (fun r => if stuckNoUrl now r then markOverdueFailed now r else r)
  let notes2 := notes1 ++ m2.map (fun r => sweeperFailedNote r.user_id)
  { st with posts := posts2, notifications := notes2 }

/-- The clean post status enum of `postLifecycle.ts`. -/
inductive PostStatus where
  | pending
  | posting
  | posted
  | failed
  deriving DecidableEq, Repr

/-- `canEditPost` from `postLifecycle.ts`. -/
def canEditPost (s : PostStatus) : Bool :=
  s == .pending

/-- `canDeletePost` from `postLifecycle.ts`. -/
def canDeletePost (s : PostStatus) : Bool :=
  s == .pending || s == .failed

/-- `isTerminalState` from `postLifecycle.ts`. -/
def isTerminalState (s : PostStatus) : Bool :=
  s == .posted || s == .failed

/-- The result record returned by the client hooks. -/
structure ClientResult where
  success : Bool
  error : Option String := none
  deriving DecidableEq, Repr

/-- `deletePost` from `useScheduledPosts.ts`: delete the row by id,
with no status precondition, and report success. -/
def deletePost (postId : String) (posts : List PostRow) : ClientResult × List PostRow :=
  ({ success := true }, posts.filter (fun p => p.id != postId))

/-- `deletePost` from `usePostsClean` (part_004): refuse when the post is
found locally with a status other than `pending`, otherwise delete by id. -/
def usePostsClean_deletePost (postId : String) (posts : List PostRow) : Bool × List PostRow :=
  match posts.find? (fun p => p.id == postId) with
  | some p =>
      if p.status != "pending" then (false, posts)
      else (true, posts.filter (fun q => q.id != postId))
  | none => (true, posts.filter (fun q => q.id != postId))

/-- `retryPost` from `useScheduledPosts.ts`: reschedule the row one
minute from now with status `pending`, a zeroed retry count and a
cleared error. -/
def retryPost (postId : String) (now : Nat) (posts : List PostRow) : ClientResult × List PostRow :=
  match posts.find? (fun p => p.id == postId) with
  | none => ({ success := false, error := some "Post not found" }, posts)
  | some _ =>
      let isoTime := now + 60000
      ({ success := true },
       posts.map (fun p =>
         if p.id == postId then
           { p with status := "pending", retry_count := 0, last_error := none,
                    next_retry_at := none, scheduled_time := some isoTime,
                    updated_at := now }
         else p))

/-- `validateScheduleTime` from `scheduling.ts`, over millisecond
timestamps: reject past times, times over 30 days ahead, and times less
than two minutes ahead. -/
def validateScheduleTime (scheduled now : Nat) : ClientResult :=
  if scheduled ≤ now then
    { success := false, error := some "That time has already passed. Please choose a future time." }
  else if now + 30 * 24 * 60 * 60 * 1000 < scheduled then
    { success := false, error := some "I can only schedule up to 30 days in advance." }
  else if scheduled < now + 2 * 60 * 1000 then
    { success := false, error := some "Please schedule at least 2 minutes from now to ensure proper posting." }
  else { success := true }

/-- The row inserted by `schedulePost` in `useScheduledPosts.ts`. -/
def schedulePostInsertRow (userId content contentWithTracking trackingId : String)
    (photoUrl : Option String) (scheduledTime : Nat) (newId : String) : PostRow :=
  { id := newId
    user_id := userId
    content := content
    content_with_tracking := some contentWithTracking
    tracking_id := some trackingId
    photo_url := jsOrOptStr photoUrl none
    scheduled_time := some scheduledTime
    status := "pending"
    retry_count := 0 }

/-- `schedulePost` from `useScheduledPosts.ts`: validate the scheduled
time and insert a row with status `pending`. -/
def schedulePost (userId content contentWithTracking trackingId : String)
    (photoUrl : Option String) (scheduledTime now : Nat) (newId : String)
    (posts : List PostRow) : ClientResult × List PostRow :=
  let v := validateScheduleTime scheduledTime now
  if !v.success then (v, posts)
  else ({ success := true },
        posts ++ [schedulePostInsertRow userId content contentWithTracking trackingId
                    photoUrl scheduledTime newId])

/-- The row inserted by `createPost` in `usePostsClean` (part_004). -/
def usePostsClean_createPost (userId content : String) (photoUrl : Option String)
    (scheduledFor : Option Nat) (newId : String) (posts : List PostRow) : List PostRow :=
  posts ++ [{ id := newId
              user_id := userId
              content := content
              photo_url := jsOrOptStr photoUrl none
              status := "pending"
              scheduled_time := scheduledFor }]

/-- An inbound window message, as seen by the bridge listeners, tagged
with the time in milliseconds at which it arrives after the request. -/
structure BridgeEvent where
  time : Nat
  type : String
  success : Bool := false
  error : Option String := none
  queueLength : Option Nat := none
  scheduledCount : Option Nat := none
  postId : Option String := none
  linkedinUrl : Option String := none
  deriving DecidableEq, Repr

/-- The value `sendToExtension` resolves with. -/
structure ScheduleResult where
  success : Bool
  error : Option String := none
  queueLength : Option Nat := none
  deriving DecidableEq, Repr

/-- The value `postNowToExtension` resolves with. -/
structure PostNowResult where
  success : Bool
  error : Option String := none
  linkedinUrl : Option String := none
  deriving DecidableEq, Repr

/-- `sendToExtension` from `scheduling.ts`: resolve with the first
`SCHEDULE_RESULT` message arriving before the 5-second timeout,
otherwise resolve with a failure result; it never rejects. -/
def sendToExtension (events : List BridgeEvent) : ScheduleResult :=
  match events.find? (fun e => decide (e.time < 5000) && e.type == "SCHEDULE_RESULT") with
  | some e =>
      if e.success then
        { success := true, queueLength := jsOrOptNat e.queueLength e.scheduledCount }
      else { success := false, error := e.error }
  | none => { success := false, error := some "Extension did not confirm scheduling" }

/-- `postNowToExtension` from `scheduling.ts`: resolve with the first
`POST_RESULT` message echoing the request's post id before the
30-second timeout, otherwise resolve with a failure result. -/
def postNowToExtension (postId : String) (events : List BridgeEvent) : PostNowResult :=
  match events.find? (fun e =>
      decide (e.time < 30000) && e.type == "POST_RESULT" && e.postId == some postId) with
  | some e =>
      if e.success then { success := true, linkedinUrl := e.linkedinUrl }
      else { success := false, error := e.error }
  | none => { success := false, error := some "Posting timeout" }

/-! ## Helper lemmas -/

theorem map_eq_self_of_eq_on {α : Type} (f : α → α) (l : List α)
    (h : ∀ a ∈ l, f a = a) : l.map f = l := by
  induction l with
  | nil => rfl
  | cons x xs ih =>
      simp only [List.map_cons, h x (by simp)]
      rw [ih (fun a ha => h a (by simp [ha]))]

theorem find?_map_of_pred_inv {α : Type} (p : α → Bool) (g : α → α) (l : List α)
    (h : ∀ a, p (g a) = p a) : (l.map g).find? p = (l.find? p).map g := by
  induction l with
  | nil => rfl
  | cons x xs ih =>
      cases hpx : p x with
      | true =>
          rw [List.map_cons, List.find?_cons_of_pos _ (by rw [h x]; exact hpx),
            List.find?_cons_of_pos _ hpx, Option.map_some']
      | false =>
          rw [List.map_cons, List.find?_cons_of_neg _ (by simp [h x, hpx]),
            List.find?_cons_of_neg _ (by simp [hpx]), ih]

theorem profileCount_bumpProfile (uid : String) (ps : List ProfileRow) :
    profileCount uid (bumpProfile uid ps) = (profileCount uid ps).map (· + 1) := by
  unfold bumpProfile
  cases h : ps.find? (fun pr => pr.user_id == uid) with
  | none => simp [profileCount, h]
  | some pr0 =>
      have hpr0 : (pr0.user_id == uid) = true := by simpa using List.find?_some h
      rw [profileCount,
        find?_map_of_pred_inv (fun pr => pr.user_id == uid)
          (fun pr => if pr.user_id == uid then
              { pr with posts_published_count := pr0.posts_published_count + 1 }
            else pr)
          ps
          (by intro a; by_cases ha : (a.user_id == uid) = true <;> simp [ha]),
        h]
      have heq : pr0.user_id = uid := by simpa using hpr0
      simp [profileCount, h, heq]

theorem syncPost_valid (p : SyncPostPayload) (now : Nat) (st : DbState)
    (h : (!(jsTruthy p.trackingId) && !(jsTruthy p.postId)) = false) :
    syncPost p now st = ({ statusCode := 200, success := true }, syncPostApply p now st) := by
  rw [syncPost, if_neg (by simp [h])]

/-! ## Claim theorems -/

/-- C1, counterexample: with a post `post-1` owned by `A`, a `sync-post`
call carrying `userId = B` and that post's id is answered with HTTP 200
success, not 403, while the post row stays unchanged; the claim that the
call is rejected with Forbidden (HTTP 403) is therefore false on the code. -/
theorem C1_counterexample :
    let st : DbState := { posts := [{ id := "post-1", user_id := "A", status := "pending" }] }
    let p : SyncPostPayload := { postId := some "post-1", userId := some "B", status := some "posted" }
    (syncPost p 1000 st).1.statusCode = 200 ∧ ¬ (syncPost p 1000 st).1.statusCode = 403 ∧
      (syncPost p 1000 st).2.posts = st.posts := by
  decide

/-- C1, amended: for two distinct owners A and B and a post belonging to
A, a `sync-post` call supplying `userId = B` together with that post's id
leaves the post row unchanged (the `userId` filter matches no row), but it
is not rejected: the handler answers HTTP 200 with `success: true`. -/
theorem C1_owner_mismatch_succeeds_silently
    (st : DbState) (now : Nat) (p : SyncPostPayload) (row : PostRow) (A B : String)
    (hmem : row ∈ st.posts) (hown : row.user_id = A)
    (hpid : p.postId = some row.id) (hid : row.id ≠ "")
    (huid : p.userId = some B) (hB : B ≠ "") (hAB : A ≠ B) :
    (syncPost p now st).1 = { statusCode := 200, success := true } ∧
      (syncPost p now st).2.posts = st.posts.map (syncUpdateRow p now) ∧
      syncUpdateRow p now row = row := by
  have htr : jsTruthy p.postId = true := by simp [jsTruthy, hpid, hid]
  have hmatch : syncRowMatches p row = false := by
    simp [syncRowMatches, huid, jsTruthy, hB, hown, hAB]
  rw [syncPost_valid p now st (by simp [htr])]
  exact ⟨rfl, rfl, by simp [syncUpdateRow, hmatch]⟩

/-- C1, witness for the amended theorem at a concrete database state. -/
theorem C1_witness :
    (syncPost { postId := some "post-1", userId := some "B", status := some "posted" } 1000
        { posts := [{ id := "post-1", user_id := "A", status := "pending" }] }).1
      = { statusCode := 200, success := true } ∧
    (syncPost { postId := some "post-1", userId := some "B", status := some "posted" } 1000
        { posts := [{ id := "post-1", user_id := "A", status := "pending" }] }).2.posts
      = [{ id := "post-1", user_id := "A", status := "pending" }].map
          (syncUpdateRow { postId := some "post-1", userId := some "B", status := some "posted" } 1000) ∧
    syncUpdateRow { postId := some "post-1", userId := some "B", status := some "posted" } 1000
        { id := "post-1", user_id := "A", status := "pending" }
      = { id := "post-1", user_id := "A", status := "pending" } :=
  C1_owner_mismatch_succeeds_silently
    { posts := [{ id := "post-1", user_id := "A", status := "pending" }] } 1000
    { postId := some "post-1", userId := some "B", status := some "posted" }
    { id := "post-1", user_id := "A", status := "pending" } "A" "B"
    (by simp) rfl rfl (by decide) rfl (by decide) (by decide)

/-- C3, counterexample: a `sync-post` call whose `postId` matches no post
row is answered with HTTP 200 success, not 404; the claim that it fails
with NotFound is therefore false on the code. -/
theorem C3_counterexample :
    let st : DbState := { posts := [{ id := "p1", user_id := "u", status := "pending" }] }
    let p : SyncPostPayload := { postId := some "p2", trackingId := some "t9" }
    (syncPost p 1000 st).1.statusCode = 200 ∧ ¬ (syncPost p 1000 st).1.statusCode = 404 ∧
      (syncPost p 1000 st).2.posts = st.posts := by
  decide

/-- C3, amended: a `sync-post` call carrying at least one identifier that
matches no post row still returns HTTP 200 with `success: true` and leaves
the posts table unchanged; the handler has no NotFound (404) path. -/
theorem C3_no_match_succeeds_silently
    (st : DbState) (now : Nat) (p : SyncPostPayload)
    (hvalid : (jsTruthy p.trackingId || jsTruthy p.postId) = true)
    (hnone : ∀ r ∈ st.posts, syncRowMatches p r = false) :
    (syncPost p now st).1 = { statusCode := 200, success := true } ∧
      (syncPost p now st).2.posts = st.posts := by
  have hposts : st.posts.map (syncUpdateRow p now) = st.posts :=
    map_eq_self_of_eq_on _ _ (fun r hr => by simp [syncUpdateRow, hnone r hr])
  have hcond : (!(jsTruthy p.trackingId) && !(jsTruthy p.postId)) = false := by
    cases h1 : jsTruthy p.trackingId <;> cases h2 : jsTruthy p.postId <;>
      simp_all
  rw [syncPost_valid p now st hcond]
  exact ⟨rfl, hposts⟩

/-- C3, witness for the amended theorem at a concrete database state. -/
theorem C3_witness :
    (syncPost { postId := some "p2", trackingId := some "t9" } 1000
        { posts := [{ id := "p1", user_id := "u", status := "pending" }] }).1
      = { statusCode := 200, success := true } ∧
    (syncPost { postId := some "p2", trackingId := some "t9" } 1000
        { posts := [{ id := "p1", user_id := "u", status := "pending" }] }).2.posts
      = [{ id := "p1", user_id := "u", status := "pending" }] :=
  C3_no_match_succeeds_silently
    { posts := [{ id := "p1", user_id := "u", status := "pending" }] } 1000
    { postId := some "p2", trackingId := some "t9" }
    (by decide) (by decide)

/-- C2, counterexample: two successive `sync-post` calls for the same
post with status `posted` and the owner's `userId` bump the owner's
`posts_published_count` from 0 to 2 and insert two success
notifications; the claim of exactly one increment and at most one
notification is therefore false on the code. -/
theorem C2_counterexample :
    let st : DbState :=
      { posts := [{ id := "p1", user_id := "u", status := "pending" }]
        profiles := [{ user_id := "u", posts_published_count := 0 }] }
    let p : SyncPostPayload := { postId := some "p1", userId := some "u", status := some "posted" }
    profileCount "u" (syncPost p 2000 (syncPost p 1000 st).2).2.profiles = some 2 ∧
      (syncPost p 2000 (syncPost p 1000 st).2).2.notifications.length = 2 := by
  decide

/-- C2, amended: `sync-post` has no idempotency guard, so each call with
status `posted` and the owner's `userId` repeats the side effects: two
successive calls increment the owner's published-post counter twice and
insert two success notifications. -/
theorem C2_double_report_doubles_side_effects
    (st : DbState) (p : SyncPostPayload) (t1 t2 : Nat) (uid : String) (pr : ProfileRow)
    (huid : p.userId = some uid) (hu : uid ≠ "")
    (hstat : p.status = some "posted")
    (hpid : jsTruthy p.postId = true)
    (hpr : st.profiles.find? (fun q => q.user_id == uid) = some pr) :
    profileCount uid (syncPost p t2 (syncPost p t1 st).2).2.profiles
        = some (pr.posts_published_count + 2) ∧
      (syncPost p t2 (syncPost p t1 st).2).2.notifications.length
        = st.notifications.length + 2 := by
  have hS : syncDoesSuccessEffects p = true := by
    simp [syncDoesSuccessEffects, jsTruthy, huid, hu, hstat]
  have hF : syncDoesFailureEffects p = false := by
    simp [syncDoesFailureEffects, hstat]
  have hvalid : (!(jsTruthy p.trackingId) && !(jsTruthy p.postId)) = false := by simp [hpid]
  rw [syncPost_valid p t1 st hvalid, syncPost_valid p t2 _ hvalid]
  constructor
  · simp only [syncPostApply, hS, if_true, huid, Option.getD_some]
    rw [profileCount_bumpProfile, profileCount_bumpProfile]
    simp [profileCount, hpr]
  · simp [syncPostApply, hS, hF]

/-- C2, witness for the amended theorem at a concrete database state. -/
theorem C2_witness :
    profileCount "u"
        (syncPost { postId := some "p1", userId := some "u", status := some "posted" } 2000
          (syncPost { postId := some "p1", userId := some "u", status := some "posted" } 1000
            { posts := [{ id := "p1", user_id := "u", status := "pending" }]
              profiles := [{ user_id := "u", posts_published_count := 0 }] }).2).2.profiles
      = some ((0 : Nat) + 2) ∧
    (syncPost { postId := some "p1", userId := some "u", status := some "posted" } 2000
        (syncPost { postId := some "p1", userId := some "u", status := some "posted" } 1000
          { posts := [{ id := "p1", user_id := "u", status := "pending" }]
            profiles := [{ user_id := "u", posts_published_count := 0 }] }).2).2.notifications.length
      = ([] : List NotificationRow).length + 2 :=
  C2_double_report_doubles_side_effects
    { posts := [{ id := "p1", user_id := "u", status := "pending" }]
      profiles := [{ user_id := "u", posts_published_count := 0 }] }
    { postId := some "p1", userId := some "u", status := some "posted" }
    1000 2000 "u" { user_id := "u", posts_published_count := 0 }
    rfl (by decide) rfl (by decide) (by decide)

/-- C4: when the payload omits `userId`, the row filter ignores
ownership (two rows agreeing on id and tracking id match identically),
the matched rows are updated whoever owns them, and none of the terminal
side effects happen: notifications, profiles and daily counts are left
unchanged for every status value. -/
theorem C4_no_userId_no_side_effects
    (st : DbState) (now : Nat) (p : SyncPostPayload) (hnouid : p.userId = none) :
    ((syncPost p now st).2.notifications = st.notifications ∧
      (syncPost p now st).2.profiles = st.profiles ∧
      (syncPost p now st).2.daily_post_counts = st.daily_post_counts) ∧
    (∀ r r' : PostRow, r.id = r'.id → r.tracking_id = r'.tracking_id →
      syncRowMatches p r = syncRowMatches p r') ∧
    ((jsTruthy p.trackingId || jsTruthy p.postId) = true →
      (syncPost p now st).2.posts = st.posts.map (syncUpdateRow p now)) := by
  have hS : syncDoesSuccessEffects p = false := by
    simp [syncDoesSuccessEffects, hnouid, jsTruthy]
  have hF : syncDoesFailureEffects p = false := by
    simp [syncDoesFailureEffects, hnouid, jsTruthy]
  have hmatch : ∀ r r' : PostRow, r.id = r'.id → r.tracking_id = r'.tracking_id →
      syncRowMatches p r = syncRowMatches p r' := by
    intro r r' hid htr
    simp [syncRowMatches, hnouid, jsTruthy, hid, htr]
  by_cases hv : (!(jsTruthy p.trackingId) && !(jsTruthy p.postId)) = true
  · rw [syncPost, if_pos hv]
    refine ⟨⟨rfl, rfl, rfl⟩, hmatch, ?_⟩
    intro hid
    cases h1 : jsTruthy p.trackingId <;> cases h2 : jsTruthy p.postId <;> simp_all
  · rw [syncPost_valid p now st (by revert hv; cases (!(jsTruthy p.trackingId) && !(jsTruthy p.postId)) <;> simp)]
    exact ⟨⟨by simp [syncPostApply, hS, hF], by simp [syncPostApply, hS], by simp [syncPostApply, hS]⟩,
      hmatch, fun _ => rfl⟩

/-- C4, witness at a concrete payload omitting `userId`: the side-effect
tables are untouched, two rows differing only in owner match alike, and
the posts table is the row-wise update. -/
theorem C4_witness :
    ((syncPost { postId := some "p1" } 5
        { posts := [{ id := "p1", user_id := "A", status := "pending" }] }).2.notifications
      = ([] : List NotificationRow) ∧
     (syncPost { postId := some "p1" } 5
        { posts := [{ id := "p1", user_id := "A", status := "pending" }] }).2.profiles
      = ([] : List ProfileRow) ∧
     (syncPost { postId := some "p1" } 5
        { posts := [{ id := "p1", user_id := "A", status := "pending" }] }).2.daily_post_counts
      = ([] : List (String × Nat))) ∧
    syncRowMatches { postId := some "p1" } { id := "p1", user_id := "A", status := "pending" }
      = syncRowMatches { postId := some "p1" } { id := "p1", user_id := "B", status := "pending" } ∧
    (syncPost { postId := some "p1" } 5
        { posts := [{ id := "p1", user_id := "A", status := "pending" }] }).2.posts
      = [{ id := "p1", user_id := "A", status := "pending" }].map
          (syncUpdateRow { postId := some "p1" } 5) := by
  have h := C4_no_userId_no_side_effects
    { posts := [{ id := "p1", user_id := "A", status := "pending" }] } 5
    { postId := some "p1" } rfl
  exact ⟨h.1, h.2.1 _ _ rfl rfl, h.2.2 (by decide)⟩

/-- C5: the sweeper's row filters only ever match rows whose status is
the string `scheduled`, a value the `posts_status_check` constraint
forbids; hence on any database whose rows satisfy the constraint,
`check-overdue-posts` changes nothing: no post with status `pending` is
transitioned to `failed` and no notification is emitted. -/
theorem C5_sweeper_dead_under_status_constraint
    (now : Nat) (st : DbState)
    (hok : ∀ r ∈ st.posts, posts_status_check r.status = true) :
    checkOverduePosts now st = st := by
  have hstat : ∀ r ∈ st.posts, (r.status == "scheduled") = false := by
    intro r hr
    have hc := hok r hr
    simp only [posts_status_check, Bool.or_eq_true, beq_iff_eq] at hc
    rcases hc with ((h' | h') | h') | h' <;> rw [h'] <;> decide
  have h1 : ∀ r ∈ st.posts, overdueWithUrl now r = false := fun r hr => by
    simp [overdueWithUrl, hstat r hr]
  have h2 : ∀ r ∈ st.posts, stuckNoUrl now r = false := fun r hr => by
    simp [stuckNoUrl, hstat r hr]
  have hm1 : st.posts.filter (overdueWithUrl now) = [] :=
    List.filter_eq_nil_iff.mpr (fun a ha => by simp [h1 a ha])
  have hp1 : st.posts.map (fun r => if overdueWithUrl now r then markAutoPosted now r else r)
      = st.posts :=
    map_eq_self_of_eq_on _ _ (fun a ha => by simp [h1 a ha])
  have hm2 : st.posts.filter (stuckNoUrl now) = [] :=
    List.filter_eq_nil_iff.mpr (fun a ha => by simp [h2 a ha])
  have hp2 : st.posts.map (fun r => if stuckNoUrl now r then markOverdueFailed now r else r)
      = st.posts :=
    map_eq_self_of_eq_on _ _ (fun a ha => by simp [h2 a ha])
  unfold checkOverduePosts
  simp only [hm1, hp1, hm2, hp2, List.map_nil, List.append_nil]

/-- C5, witness: the claim's own scenario row (status `pending`, two
hours overdue, no external URL) is left untouched by a sweeper run. -/
theorem C5_witness :
    checkOverduePosts 10000000
        { posts := [{ id := "y1", user_id := "u", status := "pending",
                      scheduled_time := some 1000 }] }
      = { posts := [{ id := "y1", user_id := "u", status := "pending",
                      scheduled_time := some 1000 }] } :=
  C5_sweeper_dead_under_status_constraint 10000000
    { posts := [{ id := "y1", user_id := "u", status := "pending",
                  scheduled_time := some 1000 }] }
    (by decide)

/-- C6, counterexample: `deletePost` (useScheduledPosts) on a post with
status `posted` reports success and removes the row, so the claim that
deleting a `posted` post fails with PreconditionFailed and leaves the
row in place is false on the code. -/
theorem C6_counterexample :
    deletePost "p1" [{ id := "p1", user_id := "u", status := "posted" }]
        = ({ success := true }, []) ∧
      canDeletePost .posted = false := by
  decide

/-- C6, amended: the deletability predicate `canDeletePost` holds exactly
for `pending` and `failed`, but the delete operations do not enforce it:
`deletePost` in `useScheduledPosts` reports success and removes the row
whatever its status, while `deletePost` in `usePostsClean` refuses any
post found with a status other than `pending` (including `failed`). -/
theorem C6_deletability_not_enforced :
    (∀ s : PostStatus, canDeletePost s = (s == .pending || s == .failed)) ∧
    (∀ (pid : String) (posts : List PostRow),
      (deletePost pid posts).1.success = true ∧
        (deletePost pid posts).2 = posts.filter (fun q => q.id != pid)) ∧
    (∀ (pid : String) (posts : List PostRow) (p0 : PostRow),
      posts.find? (fun q => q.id == pid) = some p0 → p0.status ≠ "pending" →
        usePostsClean_deletePost pid posts = (false, posts)) := by
  refine ⟨fun s => rfl, fun pid posts => ⟨rfl, rfl⟩, ?_⟩
  intro pid posts p0 hfind hstat
  simp [usePostsClean_deletePost, hfind, hstat]

/-- C6, witness: a `failed` post is refused by the usePostsClean delete
path even though `canDeletePost` allows it, and the useScheduledPosts
delete path succeeds on a `posted` post. -/
theorem C6_witness :
    usePostsClean_deletePost "p1" [{ id := "p1", user_id := "u", status := "failed" }]
        = (false, [{ id := "p1", user_id := "u", status := "failed" }]) ∧
      (deletePost "p2" [{ id := "p2", user_id := "u", status := "posted" }]).1.success = true :=
  ⟨C6_deletability_not_enforced.2.2 "p1"
      [{ id := "p1", user_id := "u", status := "failed" }]
      { id := "p1", user_id := "u", status := "failed" } (by decide) (by decide),
    (C6_deletability_not_enforced.2.1 "p2"
      [{ id := "p2", user_id := "u", status := "posted" }]).1⟩

/-- C7: when the post is found, `retryPost` succeeds and the rescheduled
row has status `pending`, a zeroed retry count, a cleared error, and a
schedule time of now plus one minute, strictly later than the request
time. -/
theorem C7_retry_fresh_cycle
    (posts : List PostRow) (postId : String) (now : Nat) (p0 : PostRow)
    (hfind : posts.find? (fun q => q.id == postId) = some p0) :
    (retryPost postId now posts).1 = { success := true } ∧
      now < now + 60000 ∧
      ∀ q ∈ (retryPost postId now posts).2, q.id = postId →
        q.status = "pending" ∧ q.retry_count = 0 ∧ q.last_error = none ∧
          q.scheduled_time = some (now + 60000) := by
  refine ⟨by simp [retryPost, hfind], by omega, ?_⟩
  intro q hq hqid
  simp only [retryPost, hfind] at hq
  obtain ⟨r, hr, rfl⟩ := List.mem_map.mp hq
  by_cases h : (r.id == postId) = true
  · simp [h]
  · rw [if_neg h] at hqid ⊢
    exact absurd (by simp [hqid]) h

/-- C7, witness: retrying a concrete failed post yields the pending,
zeroed, rescheduled row. -/
theorem C7_witness :
    (retryPost "p1" 5000
        [{ id := "p1", user_id := "u", status := "failed", last_error := some "boom", retry_count := 3 }]).1
      = { success := true } ∧
    ({ id := "p1", user_id := "u", status := "pending", retry_count := 0, scheduled_time := some 65000, updated_at := 5000 } : PostRow).status
      = "pending" ∧
    ({ id := "p1", user_id := "u", status := "pending", retry_count := 0, scheduled_time := some 65000, updated_at := 5000 } : PostRow).retry_count
      = 0 ∧
    ({ id := "p1", user_id := "u", status := "pending", retry_count := 0, scheduled_time := some 65000, updated_at := 5000 } : PostRow).last_error
      = none ∧
    ({ id := "p1", user_id := "u", status := "pending", retry_count := 0, scheduled_time := some 65000, updated_at := 5000 } : PostRow).scheduled_time
      = some (5000 + 60000) :=
  ⟨(C7_retry_fresh_cycle
      [{ id := "p1", user_id := "u", status := "failed", last_error := some "boom", retry_count := 3 }]
      "p1" 5000
      { id := "p1", user_id := "u", status := "failed", last_error := some "boom", retry_count := 3 }
      (by decide)).1,
   (C7_retry_fresh_cycle
      [{ id := "p1", user_id := "u", status := "failed", last_error := some "boom", retry_count := 3 }]
      "p1" 5000
      { id := "p1", user_id := "u", status := "failed", last_error := some "boom", retry_count := 3 }
      (by decide)).2.2
     { id := "p1", user_id := "u", status := "pending", retry_count := 0, scheduled_time := some 65000, updated_at := 5000 }
     (by decide) (by decide)⟩

/-- C8: every row added by either client-side creation path — the
validated `schedulePost` insert of `useScheduledPosts` and the
`createPost` insert of `usePostsClean` — carries status `pending`,
whatever the other supplied fields are. -/
theorem C8_created_posts_pending
    (userId content contentWithTracking trackingId : String) (photoUrl : Option String)
    (scheduledTime now : Nat) (newId : String) (posts : List PostRow)
    (scheduledFor : Option Nat) :
    (∀ r ∈ (schedulePost userId content contentWithTracking trackingId photoUrl
        scheduledTime now newId posts).2, r ∈ posts ∨ r.status = "pending") ∧
    (∀ r ∈ usePostsClean_createPost userId content photoUrl scheduledFor newId posts,
        r ∈ posts ∨ r.status = "pending") := by
  constructor
  · intro r hr
    by_cases hv : (validateScheduleTime scheduledTime now).success = true
    · simp only [schedulePost, hv, Bool.not_true, Bool.false_eq_true, if_false,
        List.mem_append, List.mem_singleton] at hr
      rcases hr with hr | hr
      · exact Or.inl hr
      · exact Or.inr (by rw [hr]; rfl)
    · rw [schedulePost] at hr
      rw [if_pos (by simp [Bool.eq_false_iff.mpr hv])] at hr
      exact Or.inl hr
  · intro r hr
    simp only [usePostsClean_createPost, List.mem_append, List.mem_singleton] at hr
    rcases hr with hr | hr
    · exact Or.inl hr
    · exact Or.inr (by rw [hr])

/-- C8, witness: a concrete row inserted by each path has status
`pending`. -/
theorem C8_witness :
    (schedulePostInsertRow "u" "content" "content [tid]" "tid" none 300000 "id1"
        ∈ ([] : List PostRow)
      ∨ (schedulePostInsertRow "u" "content" "content [tid]" "tid" none 300000 "id1").status
          = "pending") ∧
    (({ id := "id2", user_id := "u", content := "c", status := "pending" } : PostRow)
        ∈ ([] : List PostRow)
      ∨ ({ id := "id2", user_id := "u", content := "c", status := "pending" } : PostRow).status
          = "pending") :=
  ⟨(C8_created_posts_pending "u" "content" "content [tid]" "tid" none 300000 0 "id1" [] none).1
      (schedulePostInsertRow "u" "content" "content [tid]" "tid" none 300000 "id1") (by decide),
   (C8_created_posts_pending "u" "c" "cwt" "t" none 300000 0 "id2" [] none).2
      { id := "id2", user_id := "u", content := "c", status := "pending" } (by decide)⟩

/-- C9: both bridge calls are total functions on their inbound-message
stream, so every call resolves to a result value with a success flag and
never throws; when no matching response arrives before the 5-second
(scheduling) or 30-second (immediate posting) timeout, the call resolves
to the corresponding failure result, and a success result can only come
from an actual matching confirmation message. -/
theorem C9_bridge_always_resolves (events : List BridgeEvent) (pid : String) :
    ((∀ e ∈ events, ¬(e.time < 5000 ∧ e.type = "SCHEDULE_RESULT")) →
      sendToExtension events
        = { success := false, error := some "Extension did not confirm scheduling" }) ∧
    ((∀ e ∈ events, ¬(e.time < 30000 ∧ e.type = "POST_RESULT" ∧ e.postId = some pid)) →
      postNowToExtension pid events = { success := false, error := some "Posting timeout" }) ∧
    ((sendToExtension events).success = true →
      ∃ e ∈ events, e.time < 5000 ∧ e.type = "SCHEDULE_RESULT" ∧ e.success = true) ∧
    ((postNowToExtension pid events).success = true →
      ∃ e ∈ events, e.time < 30000 ∧ e.type = "POST_RESULT" ∧ e.postId = some pid ∧
        e.success = true) := by
  refine ⟨?_, ?_, ?_, ?_⟩
  · intro h
    rw [sendToExtension, List.find?_eq_none.mpr ?_]
    intro e he
    have hne := h e he
    simp only [Bool.and_eq_true, decide_eq_true_eq, beq_iff_eq, not_and]
    intro h1 h2
    exact hne ⟨h1, h2⟩
  · intro h
    rw [postNowToExtension, List.find?_eq_none.mpr ?_]
    intro e he
    have hne := h e he
    simp only [Bool.and_eq_true, decide_eq_true_eq, beq_iff_eq, not_and]
    intro h1 h2
    exact hne ⟨h1.1, h1.2, h2⟩
  · intro hs
    rcases hfind : events.find?
        (fun e => decide (e.time < 5000) && e.type == "SCHEDULE_RESULT") with _ | e
    · rw [sendToExtension, hfind] at hs
      exact absurd hs (by decide)
    · simp only [sendToExtension, hfind] at hs
      have hpred := List.find?_some hfind
      simp only [Bool.and_eq_true, decide_eq_true_eq, beq_iff_eq] at hpred
      by_cases he : e.success = true
      · exact ⟨e, List.mem_of_find?_eq_some hfind, hpred.1, hpred.2, he⟩
      · rw [if_neg he] at hs
        simp at hs
  · intro hs
    rcases hfind : events.find?
        (fun e => decide (e.time < 30000) && e.type == "POST_RESULT" && e.postId == some pid) with _ | e
    · rw [postNowToExtension, hfind] at hs
      exact absurd hs (by decide)
    · simp only [postNowToExtension, hfind] at hs
      have hpred := List.find?_some hfind
      simp only [Bool.and_eq_true, decide_eq_true_eq, beq_iff_eq] at hpred
      by_cases he : e.success = true
      · exact ⟨e, List.mem_of_find?_eq_some hfind, hpred.1.1, hpred.1.2, hpred.2, he⟩
      · rw [if_neg he] at hs
        simp at hs

/-- C9, witness: with no inbound message at all, the scheduling call
resolves to its timeout failure and the immediate-posting call resolves
to its timeout failure. -/
theorem C9_witness :
    sendToExtension []
        = { success := false, error := some "Extension did not confirm scheduling" } ∧
      postNowToExtension "p1" []
        = { success := false, error := some "Posting timeout" } :=
  ⟨(C9_bridge_always_resolves [] "p1").1 (by simp),
   (C9_bridge_always_resolves [] "p1").2.1 (by simp)⟩

/-- C10: a `sync-post` payload with an absent status behaves exactly as
if status were `posted`: the whole call (response and resulting state)
coincides with the same call carrying status `posted`, and the row
update writes status `posted`, the URL from the payload (none when
absent or empty) and a publish timestamp defaulted to the receipt
time. -/
theorem C10_absent_status_defaults_to_posted
    (p : SyncPostPayload) (now : Nat) (st : DbState) (row : PostRow)
    (hstat : p.status = none) :
    syncPost p now st = syncPost { p with status := some "posted" } now st ∧
      (applySyncUpdate p now row).status = "posted" ∧
      (applySyncUpdate p now row).linkedin_post_url = jsOrOptStr p.linkedinUrl none ∧
      (applySyncUpdate p now row).posted_at = some (p.postedAt.getD now) := by
  obtain ⟨tid, pid, uid, lurl, stat, pat, lerr⟩ := p
  simp only [SyncPostPayload.mk.injEq] at hstat ⊢
  subst hstat
  refine ⟨?_, ?_, ?_, ?_⟩
  · have hfun : syncUpdateRow
        { trackingId := tid, postId := pid, userId := uid, linkedinUrl := lurl,
          status := none, postedAt := pat, lastError := lerr } now
        = syncUpdateRow
        { trackingId := tid, postId := pid, userId := uid, linkedinUrl := lurl,
          status := some "posted", postedAt := pat, lastError := lerr } now :=
      funext fun r => rfl
    simp [syncPost, syncPostApply, syncDoesSuccessEffects, syncDoesFailureEffects,
      jsTruthy, hfun]
  · simp [applySyncUpdate, jsTruthy, jsOrStr]
  · simp [applySyncUpdate, jsTruthy]
  · simp [applySyncUpdate, jsTruthy]

/-- C10, witness: a concrete call omitting status equals the same call
with status `posted`, and the row update fields are as claimed. -/
theorem C10_witness :
    syncPost { postId := some "p1", linkedinUrl := some "https://l.i/x" } 7
        { posts := [{ id := "p1", user_id := "u", status := "pending" }] }
      = syncPost { postId := some "p1", linkedinUrl := some "https://l.i/x", status := some "posted" } 7
        { posts := [{ id := "p1", user_id := "u", status := "pending" }] } ∧
    (applySyncUpdate { postId := some "p1", linkedinUrl := some "https://l.i/x" } 7
        { id := "p1", user_id := "u", status := "pending" }).status = "posted" ∧
    (applySyncUpdate { postId := some "p1", linkedinUrl := some "https://l.i/x" } 7
        { id := "p1", user_id := "u", status := "pending" }).linkedin_post_url
      = jsOrOptStr (some "https://l.i/x") none ∧
    (applySyncUpdate { postId := some "p1", linkedinUrl := some "https://l.i/x" } 7
        { id := "p1", user_id := "u", status := "pending" }).posted_at
      = some ((none : Option Nat).getD 7) :=
  C10_absent_status_defaults_to_posted
    { postId := some "p1", linkedinUrl := some "https://l.i/x" } 7
    { posts := [{ id := "p1", user_id := "u", status := "pending" }] }
    { id := "p1", user_id := "u", status := "pending" } rfl

end LinkAiFriend
